import Mathlib

/-!
Shallow embedding of `plaidsync/plaidapi.py` (the Plaid aggregator adapter).

Modelling conventions:
* Vendor `date` / `datetime` objects are modelled by their ISO rendering wrapped
  in a one-field structure (`PDate`, `PDateTime`); `isoformat` unwraps it, so it
  is injective, as in the Python library.
* A vendor call is modelled by the response the vendor would deliver:
  `Except ApiException ρ` for single-call operations, and a scripted list of
  such responses for the paginated `get_transactions` loop, which consumes one
  scripted response per vendor call and also returns the trace of the request
  objects it built.
* Raising a Python exception is modelled with `Except` / `Option`: the adapter
  either returns a value or the exception that escapes it.
* Python dicts with a fixed key set (the `serialize_*` outputs and the request
  objects) are modelled as structures with one field per key.
-/

/-- ISO-rendered calendar date (`datetime.date`). -/
structure PDate where
  iso : String
deriving DecidableEq, Repr

/-- `date.isoformat()`. -/
def PDate.isoformat (d : PDate) : String := d.iso

/-- ISO-rendered timestamp (`datetime.datetime`). -/
structure PDateTime where
  iso : String
deriving DecidableEq, Repr

/-- `datetime.isoformat()`. -/
def PDateTime.isoformat (d : PDateTime) : String := d.iso

/-- The parsed body of a `plaid.ApiException` (`json.loads(ex.body)` keeps the
`error_code` and `error_message` keys the adapter reads). -/
structure ErrorBody where
  error_code : String
  error_message : String
deriving DecidableEq, Repr

/-- `plaid.ApiException`, carrying its structured payload. -/
structure ApiException where
  body : ErrorBody
deriving DecidableEq, Repr

/-- Which `PlaidError` subclass was raised. -/
inductive DomainErrorKind where
  | noApplicableAccounts  -- PlaidNoApplicableAccounts
  | accountUpdateNeeded   -- PlaidAccountUpdateNeeded
  | unknown               -- PlaidUnknownError
deriving DecidableEq, Repr

/-- A raised `PlaidError`: subclass tag plus the `error_code` / `error_message`
fields set by `PlaidError.__init__` from the vendor payload. -/
structure PlaidError where
  kind : DomainErrorKind
  error_code : String
  error_message : String
deriving DecidableEq, Repr

/-- `raise_plaid`: dispatch on the payload's `error_code`, raising the matching
`PlaidError` subclass built from the payload. -/
def raise_plaid (ex : ApiException) : PlaidError :=
  let response := ex.body
  if response.error_code = "NO_ACCOUNTS" then
    { kind := .noApplicableAccounts
      error_code := response.error_code
      error_message := response.error_message }
  else if response.error_code = "ITEM_LOGIN_REQUIRED" then
    { kind := .accountUpdateNeeded
      error_code := response.error_code
      error_message := response.error_message }
  else
    { kind := .unknown
      error_code := response.error_code
      error_message := response.error_message }

/-- `wrap_plaid_error`: run the wrapped body; pass a normal result through and
translate an escaping `plaid.ApiException` with `raise_plaid`. -/
def wrap_plaid_error {α : Type} (f : Except ApiException α) : Except PlaidError α :=
  match f with
  | .ok a => .ok a
  | .error ex => .error (raise_plaid ex)

/-- `plaid.model.account_base` balances sub-object. Amounts are modelled as
integers (their numeric identity is all the adapter inspects). -/
structure Balances where
  current : Option Int
  available : Option Int
  limit : Option Int
  iso_currency_code : Option String
deriving DecidableEq, Repr

/-- `plaid.model.account_base.AccountBase`. The `type` / `subtype` enums are
modelled by their `str(...)` rendering. -/
structure AccountBase where
  account_id : String
  balances : Balances
  mask : Option String
  name : String
  official_name : Option String
  type : String
  subtype : String
  verification_status : Option String
  persistent_account_id : Option String
deriving DecidableEq, Repr

/-- The dict built by `serialize_account_base` (its `balances` key holds
`balances.to_dict()`, a faithful mapping of the balances fields). -/
structure RawAccountBase where
  account_id : String
  balances : Balances
  mask : Option String
  name : String
  official_name : Option String
  type : String
  subtype : String
  verification_status : Option String
  persistent_account_id : Option String
deriving DecidableEq, Repr

/-- `serialize_account_base`. -/
def serialize_account_base (obj : AccountBase) : RawAccountBase :=
  { account_id := obj.account_id
    balances := obj.balances
    mask := obj.mask
    name := obj.name
    official_name := obj.official_name
    type := obj.type
    subtype := obj.subtype
    verification_status := obj.verification_status
    persistent_account_id := obj.persistent_account_id }

/-- The internal `AccountBalance` record. -/
structure AccountBalance where
  raw_data : RawAccountBase
  account_id : String
  account_name : String
  account_type : String
  account_subtype : String
  account_number : Option String
  balance_current : Option Int
  balance_available : Option Int
  balance_limit : Option Int
  currency_code : Option String
deriving DecidableEq, Repr

/-- `AccountBalance.__init__`. -/
def AccountBalance.make (data : AccountBase) : AccountBalance :=
  { raw_data := serialize_account_base data
    account_id := data.account_id
    account_name := data.name
    account_type := data.type
    account_subtype := data.subtype
    account_number := data.mask
    balance_current := data.balances.current
    balance_available := data.balances.available
    balance_limit := data.balances.limit
    currency_code := data.balances.iso_currency_code }

/-- `plaid.model.item.Item`. Product enums are modelled by their `str(...)`
rendering. -/
structure Item where
  item_id : String
  webhook : Option String
  available_products : List String
  billed_products : List String
  consent_expiration_time : Option PDateTime
  update_type : String
  institution_id : Option String
  products : List String
deriving DecidableEq, Repr

/-- Transaction-sync status timestamps inside `ItemGetResponse.status`. -/
structure TransactionsStatus where
  last_failed_update : Option PDateTime
  last_successful_update : Option PDateTime
deriving DecidableEq, Repr

/-- `ItemGetResponse.status`. -/
structure ItemStatus where
  transactions : TransactionsStatus
deriving DecidableEq, Repr

/-- `plaid.model.item_get_response.ItemGetResponse`. -/
structure ItemGetResponse where
  item : Item
  status : ItemStatus
deriving DecidableEq, Repr

/-- The dict built by `serialize_item`. -/
structure RawItem where
  item_id : String
  webhook : Option String
  available_products : List String
  billed_products : List String
  consent_expiration_time : Option String
  update_type : String
  institution_id : Option String
  products : List String
deriving DecidableEq, Repr

/-- `serialize_item` (a present `consent_expiration_time` datetime is truthy,
so the `if` reduces to a None test). -/
def serialize_item (obj : Item) : RawItem :=
  { item_id := obj.item_id
    webhook := obj.webhook
    available_products := obj.available_products
    billed_products := obj.billed_products
    consent_expiration_time :=
      match obj.consent_expiration_time with
      | some t => some t.isoformat
      | none => none
    update_type := obj.update_type
    institution_id := obj.institution_id
    products := obj.products }

/-- The internal `AccountInfo` record. -/
structure AccountInfo where
  raw_data : RawItem
  item_id : String
  institution_id : Option String
  ts_consent_expiration : Option PDateTime
  ts_last_failed_update : Option PDateTime
  ts_last_successful_update : Option PDateTime
deriving DecidableEq, Repr

/-- `AccountInfo.__init__`. -/
def AccountInfo.make (data : ItemGetResponse) : AccountInfo :=
  { raw_data := serialize_item data.item
    item_id := data.item.item_id
    institution_id := data.item.institution_id
    ts_consent_expiration := data.item.consent_expiration_time
    ts_last_failed_update := data.status.transactions.last_failed_update
    ts_last_successful_update := data.status.transactions.last_successful_update }

/-- `plaid.model.transaction.Transaction` (the fields the adapter touches).
`date` is non-nullable; `authorized_date` and `datetime` are nullable. -/
structure PlaidTransaction where
  account_id : String
  iso_currency_code : Option String
  category : Option (List String)
  category_id : Option String
  date : PDate
  name : String
  pending : Bool
  pending_transaction_id : Option String
  account_owner : Option String
  transaction_id : String
  authorized_date : Option PDate
  datetime : Option PDateTime
  payment_channel : String
  merchant_name : Option String
  amount : Int
deriving DecidableEq, Repr

/-- The dict built by `serialize_transaction`. -/
structure RawTransaction where
  account_id : String
  iso_currency_code : Option String
  category : Option (List String)
  category_id : Option String
  date : String
  name : String
  pending : Bool
  pending_transaction_id : Option String
  account_owner : Option String
  transaction_id : String
  authorized_date : String
  datetime : Option String
  payment_channel : String
deriving DecidableEq, Repr

/-- `serialize_transaction`. The source calls
`obj.authorized_date.isoformat()` with no None guard, so a `None`
`authorized_date` raises `AttributeError` (modelled as `none`), while the
nullable `datetime` field is guarded by an `if`. -/
def serialize_transaction (obj : PlaidTransaction) : Option RawTransaction :=
  match obj.authorized_date with
  | none => none
  | some ad =>
    some
      { account_id := obj.account_id
        iso_currency_code := obj.iso_currency_code
        category := obj.category
        category_id := obj.category_id
        date := obj.date.isoformat
        name := obj.name
        pending := obj.pending
        pending_transaction_id := obj.pending_transaction_id
        account_owner := obj.account_owner
        transaction_id := obj.transaction_id
        authorized_date := ad.isoformat
        datetime :=
          match obj.datetime with
          | some dt => some dt.isoformat
          | none => none
        payment_channel := obj.payment_channel }

/-- The internal `Transaction` record. -/
structure Transaction where
  raw_data : RawTransaction
  account_id : String
  date : PDate
  transaction_id : String
  pending : Bool
  merchant_name : Option String
  amount : Int
  currency_code : Option String
deriving DecidableEq, Repr

/-- `Transaction.__init__`; `none` when `serialize_transaction` raises. -/
def Transaction.make (data : PlaidTransaction) : Option Transaction :=
  (serialize_transaction data).map fun raw =>
    { raw_data := raw
      account_id := data.account_id
      date := data.date
      transaction_id := data.transaction_id
      pending := data.pending
      merchant_name := data.merchant_name
      amount := data.amount
      currency_code := data.iso_currency_code }

/-- `plaid.model.link_token_create_request.LinkTokenCreateRequest` as built by
`get_link_token`: the fixed `data` dict plus the two optional keys. -/
structure LinkTokenCreateRequest where
  client_user_id : String
  client_name : String
  country_codes : List String
  language : String
  access_token : Option String
  products : Option (List String)
deriving DecidableEq, Repr

/-- Response of `link_token_create`. -/
structure LinkTokenCreateResponse where
  link_token : String
deriving DecidableEq, Repr

/-- Python truthiness of an `Optional[str]`: `None` and `""` are falsy. -/
def pyTruthy : Option String → Bool
  | none => false
  | some s => s ≠ ""

/-- The request-building portion of `get_link_token`: the fixed `data` dict,
then `if access_token: data['access_token'] = access_token else:
data['products'] = [Products('transactions')]`. -/
def build_link_token_request (access_token : Option String) : LinkTokenCreateRequest :=
  let base : LinkTokenCreateRequest :=
    { client_user_id := "abc123"
      client_name := "plaid-sync"
      country_codes := ["US"]
      language := "en"
      access_token := none
      products := none }
  if pyTruthy access_token then
    { base with access_token := access_token }
  else
    { base with products := some ["transactions"] }

/-- `PlaidAPI.get_link_token`, with the vendor's `link_token_create` modelled
by the response it would deliver to the built request. -/
def get_link_token (access_token : Option String)
    (vendor : LinkTokenCreateRequest → Except ApiException LinkTokenCreateResponse) :
    Except PlaidError String :=
  wrap_plaid_error
    ((vendor (build_link_token_request access_token)).map fun res => res.link_token)

/-- `plaid.model.item_public_token_exchange_request.ItemPublicTokenExchangeRequest`. -/
structure ItemPublicTokenExchangeRequest where
  public_token : String
deriving DecidableEq, Repr

/-- Response of `item_public_token_exchange`. -/
structure ItemPublicTokenExchangeResponse where
  access_token : String
deriving DecidableEq, Repr

/-- `PlaidAPI.exchange_public_token`. -/
def exchange_public_token (public_token : String)
    (vendor : ItemPublicTokenExchangeRequest → Except ApiException ItemPublicTokenExchangeResponse) :
    Except PlaidError String :=
  wrap_plaid_error
    ((vendor { public_token := public_token }).map fun res => res.access_token)

/-- The raw POST issued by `sandbox_reset_login`: endpoint path plus the
`access_token` body field. -/
structure SandboxResetRequest where
  path : String
  access_token : String
deriving DecidableEq, Repr

/-- `PlaidAPI.sandbox_reset_login`; the vendor's reply is passed through. -/
def sandbox_reset_login (access_token : String)
    (vendor : SandboxResetRequest → Except ApiException String) :
    Except PlaidError String :=
  wrap_plaid_error
    (vendor { path := "/sandbox/item/reset_login", access_token := access_token })

/-- `plaid.model.item_get_request.ItemGetRequest`. -/
structure ItemGetRequest where
  access_token : String
deriving DecidableEq, Repr

/-- `PlaidAPI.get_item_info`. -/
def get_item_info (access_token : String)
    (vendor : ItemGetRequest → Except ApiException ItemGetResponse) :
    Except PlaidError AccountInfo :=
  wrap_plaid_error
    ((vendor { access_token := access_token }).map fun res => AccountInfo.make res)

/-- `plaid.model.accounts_balance_get_request.AccountsBalanceGetRequest`. -/
structure AccountsBalanceGetRequest where
  access_token : String
deriving DecidableEq, Repr

/-- Response of `accounts_balance_get`. -/
structure AccountsGetResponse where
  accounts : List AccountBase
deriving DecidableEq, Repr

/-- `PlaidAPI.get_account_balance`. The body builds one request and issues one
vendor call; the returned request list is the trace of requests issued, so its
single element records that exactly one call is made. -/
def get_account_balance (access_token : String)
    (vendorResult : Except ApiException AccountsGetResponse) :
    List AccountsBalanceGetRequest × Except PlaidError (List AccountBalance) :=
  let req : AccountsBalanceGetRequest := { access_token := access_token }
  ([req],
   wrap_plaid_error
     (vendorResult.map fun res => res.accounts.map AccountBalance.make))

/-- `plaid.model.transactions_sync_request.TransactionsSyncRequest` as built in
the loop: only `access_token` and `cursor` are set. -/
structure TransactionsSyncRequest where
  access_token : String
  cursor : String
deriving DecidableEq, Repr

/-- `plaid.model.transactions_sync_response.TransactionsSyncResponse` (the
fields the loop reads). -/
structure TransactionsSyncResponse where
  added : List PlaidTransaction
  has_more : Bool
  next_cursor : String
deriving DecidableEq, Repr

/-- How a `get_transactions` call can fail. -/
inductive AdapterFailure where
  /-- A `plaid.ApiException` translated at the decorator boundary. -/
  | domain (e : PlaidError)
  /-- The `AttributeError` from `serialize_transaction` on a `None`
  `authorized_date`; not a `PlaidError`. -/
  | attributeError
  /-- Model artifact: the loop issued a call the finite vendor script does not
  cover; theorems quantify over scripts long enough for the run. -/
  | noResponse
deriving DecidableEq, Repr

/-- `[Transaction(t) for t in added]`: builds the records left to right and
propagates the first construction failure. -/
def mapTransactions : List PlaidTransaction → Option (List Transaction)
  | [] => some []
  | t :: ts =>
    match Transaction.make t, mapTransactions ts with
    | some tx, some txs => some (tx :: txs)
    | _, _ => none

/-- The `while has_more` loop of `PlaidAPI.get_transactions`, with the vendor's
`transactions_sync` modelled by the script of responses it would deliver to the
successive calls. Returns the trace of built requests and either the
accumulated transactions or the exception escaping the loop (a vendor error, a
serialization `AttributeError`, or an exhausted script). -/
def transactionsSyncLoop (access_token : String) (next_cursor : String)
    (pages : List (Except ApiException TransactionsSyncResponse)) :
    List TransactionsSyncRequest × Except AdapterFailure (List Transaction) :=
  let req : TransactionsSyncRequest :=
    { access_token := access_token, cursor := next_cursor }
  match pages with
  | [] => ([req], .error .noResponse)
  | page :: rest =>
    match page with
    | .error ex => ([req], .error (.domain (raise_plaid ex)))
    | .ok res =>
      match mapTransactions res.added with
      | none => ([req], .error .attributeError)
      | some txs =>
        if res.has_more then
          let next := transactionsSyncLoop access_token res.next_cursor rest
          (req :: next.1, next.2.map fun more => txs ++ more)
        else
          ([req], .ok txs)

/-- `PlaidAPI.get_transactions` (cursor mode, as in the source): `start_date`,
`end_date` and `account_ids` are accepted but never read; the loop starts from
the empty cursor. -/
def get_transactions (access_token : String) (start_date end_date : PDate)
    (account_ids : Option (List String))
    (pages : List (Except ApiException TransactionsSyncResponse)) :
    List TransactionsSyncRequest × Except AdapterFailure (List Transaction) :=
  transactionsSyncLoop access_token "" pages

/-- Cursors used by a run that consumes the given responses in order, starting
from `c`. -/
def chainCursors (c : String) : List TransactionsSyncResponse → List String
  | [] => []
  | p :: rest => c :: chainCursors p.next_cursor rest

/-- Cursor the loop holds after consuming the given responses, starting from
`c`. -/
def endCursor (c : String) : List TransactionsSyncResponse → String
  | [] => c
  | p :: rest => endCursor p.next_cursor rest

/-- Scripted pages shaped as the spec's cursor-mode scenario: every page except
the last reports `has_more`, the last does not. -/
def CursorPaged : List TransactionsSyncResponse → Prop
  | [] => False
  | [p] => p.has_more = false
  | p :: rest => p.has_more = true ∧ CursorPaged rest

/-- Transactions appended by a run that consumes the given responses in order
(`transactions += [Transaction(t) for t in added]` page by page). -/
def allAdded : List TransactionsSyncResponse → List PlaidTransaction
  | [] => []
  | p :: rest => p.added ++ allAdded rest

/-- Reads every typed `AccountBalance` field back out of a serialized
`raw_data` payload. -/
def reconstructAccountBalance (raw : RawAccountBase) : AccountBalance :=
  { raw_data := raw
    account_id := raw.account_id
    account_name := raw.name
    account_type := raw.type
    account_subtype := raw.subtype
    account_number := raw.mask
    balance_current := raw.balances.current
    balance_available := raw.balances.available
    balance_limit := raw.balances.limit
    currency_code := raw.balances.iso_currency_code }

/-- A concrete vendor transaction whose nullable fields are populated, used as
test data. -/
def sampleTx (tid : String) : PlaidTransaction :=
  { account_id := "acc1"
    iso_currency_code := some "USD"
    category := none
    category_id := none
    date := { iso := "2024-01-02" }
    name := "coffee"
    pending := false
    pending_transaction_id := none
    account_owner := none
    transaction_id := tid
    authorized_date := some { iso := "2024-01-01" }
    datetime := none
    payment_channel := "online"
    merchant_name := some "Cafe"
    amount := 5 }

/-- The internal record `Transaction.__init__` builds from `sampleTx "tw"`. -/
def sampleTxRecord : Transaction :=
  { raw_data :=
      { account_id := "acc1"
        iso_currency_code := some "USD"
        category := none
        category_id := none
        date := "2024-01-02"
        name := "coffee"
        pending := false
        pending_transaction_id := none
        account_owner := none
        transaction_id := "tw"
        authorized_date := "2024-01-01"
        datetime := none
        payment_channel := "online" }
    account_id := "acc1"
    date := { iso := "2024-01-02" }
    transaction_id := "tw"
    pending := false
    merchant_name := some "Cafe"
    amount := 5
    currency_code := some "USD" }

/-- First page of the spec's cursor-mode scenario. -/
def pageA : TransactionsSyncResponse :=
  { added := [sampleTx "t1", sampleTx "t2"], has_more := true, next_cursor := "c1" }

/-- Second page of the spec's cursor-mode scenario. -/
def pageB : TransactionsSyncResponse :=
  { added := [sampleTx "t3"], has_more := false, next_cursor := "c2" }

/-- A single terminal page, used when exercising date independence. -/
def datePage : TransactionsSyncResponse :=
  { added := [sampleTx "t9"], has_more := false, next_cursor := "c9" }

/-- Two vendor transactions identical except for `amount`. -/
def txAmountA : PlaidTransaction := { sampleTx "tX" with amount := 5 }

/-- See `txAmountA`. -/
def txAmountB : PlaidTransaction := { sampleTx "tX" with amount := 6 }

/-- Two vendor transactions identical except for `merchant_name`. -/
def txMerchA : PlaidTransaction := { sampleTx "tY" with merchant_name := some "A" }

/-- See `txMerchA`. -/
def txMerchB : PlaidTransaction := { sampleTx "tY" with merchant_name := some "B" }

/-- A concrete vendor item. -/
def sampleItem : Item :=
  { item_id := "item1"
    webhook := none
    available_products := []
    billed_products := ["transactions"]
    consent_expiration_time := none
    update_type := "background"
    institution_id := some "ins1"
    products := ["transactions"]
  }

/-- Two item-get responses with the same item but different sync status. -/
def infoRespA : ItemGetResponse :=
  { item := sampleItem
    status := { transactions := { last_failed_update := none, last_successful_update := none } } }

/-- See `infoRespA`. -/
def infoRespB : ItemGetResponse :=
  { item := sampleItem
    status := { transactions :=
      { last_failed_update := some { iso := "2024-05-01T00:00:00+00:00" }
        last_successful_update := some { iso := "2024-05-02T00:00:00+00:00" } } } }

/-- A vendor transaction whose `authorized_date` is `None`. -/
def badTx : PlaidTransaction := { sampleTx "tbad" with authorized_date := none }

/-- A terminal page delivering `badTx`. -/
def badPage : TransactionsSyncResponse :=
  { added := [badTx], has_more := false, next_cursor := "cb" }

/-- A concrete vendor account. -/
def sampleAccount : AccountBase :=
  { account_id := "acc1"
    balances :=
      { current := some 100
        available := some 90
        limit := none
        iso_currency_code := some "USD" }
    mask := some "1234"
    name := "Checking"
    official_name := some "My Checking"
    type := "depository"
    subtype := "checking"
    verification_status := none
    persistent_account_id := none }

theorem mapTransactions_eq (ts : List PlaidTransaction)
    (h : ∀ t ∈ ts, (Transaction.make t).isSome) :
    mapTransactions ts = some (ts.filterMap Transaction.make) := by
  induction ts with
  | nil => rfl
  | cons t ts ih =>
    obtain ⟨tx, htx⟩ := Option.isSome_iff_exists.mp (h t (by simp))
    have ih2 := ih fun u hu => h u (by simp [hu])
    simp [mapTransactions, htx, ih2, List.filterMap_cons]

theorem chainCursors_length (c : String) (resp : List TransactionsSyncResponse) :
    (chainCursors c resp).length = resp.length := by
  induction resp generalizing c with
  | nil => rfl
  | cons p rest ih => simp [chainCursors, ih]

theorem transactionsSyncLoop_ok (tok : String) (resp : List TransactionsSyncResponse) :
    ∀ (extra : List (Except ApiException TransactionsSyncResponse)) (c : String),
      CursorPaged resp →
      (∀ p ∈ resp, ∀ t ∈ p.added, (Transaction.make t).isSome) →
      transactionsSyncLoop tok c (resp.map Except.ok ++ extra) =
        ((chainCursors c resp).map fun cur => { access_token := tok, cursor := cur },
         Except.ok ((allAdded resp).filterMap Transaction.make)) := by
  induction resp with
  | nil => intro extra c h; exact absurd h (by simp [CursorPaged])
  | cons p rest ih =>
    intro extra c hpaged hmk
    have hmap : mapTransactions p.added = some (p.added.filterMap Transaction.make) :=
      mapTransactions_eq _ (hmk p (by simp))
    cases rest with
    | nil =>
      have hlast : p.has_more = false := hpaged
      simp [transactionsSyncLoop, hmap, hlast, chainCursors, allAdded]
    | cons q rs =>
      obtain ⟨hmore, hrest⟩ := hpaged
      have hrec := ih extra p.next_cursor hrest fun u hu => hmk u (by simp [hu])
      rw [List.map_cons, List.cons_append, transactionsSyncLoop.eq_def]
      simp only [hmap, hmore, if_true, hrec, chainCursors, allAdded,
        List.filterMap_append, Except.map]
      simp

theorem transactionsSyncLoop_error (tok : String) (ex : ApiException)
    (resp : List TransactionsSyncResponse) :
    ∀ (after : List (Except ApiException TransactionsSyncResponse)) (c : String),
      (∀ p ∈ resp, p.has_more = true ∧ ∀ t ∈ p.added, (Transaction.make t).isSome) →
      transactionsSyncLoop tok c (resp.map Except.ok ++ Except.error ex :: after) =
        ((chainCursors c resp ++ [endCursor c resp]).map
           fun cur => { access_token := tok, cursor := cur },
         Except.error (AdapterFailure.domain (raise_plaid ex))) := by
  induction resp with
  | nil => intro after c _; simp [transactionsSyncLoop, chainCursors, endCursor]
  | cons p rest ih =>
    intro after c h
    obtain ⟨hmore, hmk⟩ := h p (by simp)
    have hmap : mapTransactions p.added = some (p.added.filterMap Transaction.make) :=
      mapTransactions_eq _ hmk
    have hrec := ih after p.next_cursor fun u hu => h u (by simp [hu])
    rw [List.map_cons, List.cons_append, transactionsSyncLoop.eq_def]
    simp only [hmap, hmore, if_true, hrec, chainCursors, endCursor, Except.map]
    simp

theorem transactionsSyncLoop_head (tok c : String)
    (pages : List (Except ApiException TransactionsSyncResponse)) :
    (transactionsSyncLoop tok c pages).1.head? =
      some { access_token := tok, cursor := c } := by
  cases pages with
  | nil => rfl
  | cons page rest =>
    cases page with
    | error ex => rfl
    | ok res =>
      rcases hm : mapTransactions res.added with _ | txs <;>
        rcases hb : res.has_more <;>
          simp [transactionsSyncLoop, hm, hb]

theorem transactionsSyncLoop_trace_token (tok : String)
    (pages : List (Except ApiException TransactionsSyncResponse)) :
    ∀ (c : String), ∀ r ∈ (transactionsSyncLoop tok c pages).1, r.access_token = tok := by
  induction pages with
  | nil => intro c r hr; simp [transactionsSyncLoop] at hr; simp [hr]
  | cons page rest ih =>
    intro c r hr
    cases page with
    | error ex => simp [transactionsSyncLoop] at hr; simp [hr]
    | ok res =>
      rcases hm : mapTransactions res.added with _ | txs
      · simp [transactionsSyncLoop, hm] at hr
        simp [hr]
      · rcases hb : res.has_more
        · simp [transactionsSyncLoop, hm, hb] at hr
          simp [hr]
        · simp only [transactionsSyncLoop, hm, hb, if_true] at hr
          simp only [List.mem_cons] at hr
          rcases hr with hr | hr
          · simp [hr]
          · exact ih res.next_cursor r hr

/-- Claim C1: for every vendor API error, `raise_plaid` raises the domain error
determined by the payload's error code — `NO_ACCOUNTS` raises
`PlaidNoApplicableAccounts`, `ITEM_LOGIN_REQUIRED` raises
`PlaidAccountUpdateNeeded`, every other code raises `PlaidUnknownError` — and
the raised error carries the payload's `error_code` and `error_message`
unchanged. -/
theorem claim_C1 (ex : ApiException) :
    ((raise_plaid ex).error_code = ex.body.error_code ∧
     (raise_plaid ex).error_message = ex.body.error_message) ∧
    (ex.body.error_code = "NO_ACCOUNTS" →
      (raise_plaid ex).kind = DomainErrorKind.noApplicableAccounts) ∧
    (ex.body.error_code = "ITEM_LOGIN_REQUIRED" →
      (raise_plaid ex).kind = DomainErrorKind.accountUpdateNeeded) ∧
    (ex.body.error_code ≠ "NO_ACCOUNTS" → ex.body.error_code ≠ "ITEM_LOGIN_REQUIRED" →
      (raise_plaid ex).kind = DomainErrorKind.unknown) := by
  simp only [raise_plaid]
  split_ifs with h1 h2 <;> simp_all

/-- Witness for `claim_C1` at the three classes of error codes. -/
theorem claim_C1_witness :
    (raise_plaid { body := { error_code := "NO_ACCOUNTS", error_message := "m1" } }).kind =
      DomainErrorKind.noApplicableAccounts ∧
    (raise_plaid { body := { error_code := "ITEM_LOGIN_REQUIRED", error_message := "m2" } }).kind =
      DomainErrorKind.accountUpdateNeeded ∧
    (raise_plaid { body := { error_code := "RATE_LIMIT", error_message := "m3" } }).kind =
      DomainErrorKind.unknown ∧
    (raise_plaid { body := { error_code := "NO_ACCOUNTS", error_message := "m1" } }).error_message =
      "m1" :=
  ⟨(claim_C1 { body := { error_code := "NO_ACCOUNTS", error_message := "m1" } }).2.1 rfl,
   (claim_C1 { body := { error_code := "ITEM_LOGIN_REQUIRED", error_message := "m2" } }).2.2.1 rfl,
   (claim_C1 { body := { error_code := "RATE_LIMIT", error_message := "m3" } }).2.2.2
     (by decide) (by decide),
   (claim_C1 { body := { error_code := "NO_ACCOUNTS", error_message := "m1" } }).1.2⟩

/-- Claim C3: every vendor-client invocation is wrapped by `wrap_plaid_error`:
a normal result passes through, a `plaid.ApiException` is re-raised as the
`PlaidError` built by `raise_plaid` — one of exactly three kinds — and the
vendor's own exception type never escapes any of the six adapter operations
(their error results are always `raise_plaid`-translated `PlaidError`s). -/
theorem claim_C3 :
    (∀ (α : Type) (a : α), wrap_plaid_error (Except.ok a) = Except.ok a) ∧
    (∀ (α : Type) (ex : ApiException),
        wrap_plaid_error (α := α) (Except.error ex) = Except.error (raise_plaid ex)) ∧
    (∀ ex : ApiException,
        (raise_plaid ex).kind = DomainErrorKind.noApplicableAccounts ∨
        (raise_plaid ex).kind = DomainErrorKind.accountUpdateNeeded ∨
        (raise_plaid ex).kind = DomainErrorKind.unknown) ∧
    (∀ (a : Option String) (ex : ApiException),
        get_link_token a (fun _ => Except.error ex) = Except.error (raise_plaid ex)) ∧
    (∀ (pt : String) (ex : ApiException),
        exchange_public_token pt (fun _ => Except.error ex) = Except.error (raise_plaid ex)) ∧
    (∀ (tok : String) (ex : ApiException),
        sandbox_reset_login tok (fun _ => Except.error ex) = Except.error (raise_plaid ex)) ∧
    (∀ (tok : String) (ex : ApiException),
        get_item_info tok (fun _ => Except.error ex) = Except.error (raise_plaid ex)) ∧
    (∀ (tok : String) (ex : ApiException),
        (get_account_balance tok (Except.error ex)).2 = Except.error (raise_plaid ex)) ∧
    (∀ (tok : String) (sd ed : PDate) (ids : Option (List String)) (ex : ApiException)
        (rest : List (Except ApiException TransactionsSyncResponse)),
        (get_transactions tok sd ed ids (Except.error ex :: rest)).2 =
          Except.error (AdapterFailure.domain (raise_plaid ex))) := by
  refine ⟨fun _ _ => rfl, fun _ _ => rfl, ?_,
    fun _ _ => rfl, fun _ _ => rfl, fun _ _ => rfl, fun _ _ => rfl, fun _ _ => rfl,
    fun _ _ _ _ _ _ => rfl⟩
  intro ex
  simp only [raise_plaid]
  split_ifs <;> simp

/-- Claim C5: `get_link_token` with no access token builds a request with
product scope `transactions` and no access token; with an existing (non-empty)
access token it builds a request with that token and no product scope; every
input yields exactly one of these two mutually exclusive shapes. -/
theorem claim_C5 :
    ((build_link_token_request none).products = some ["transactions"] ∧
     (build_link_token_request none).access_token = none) ∧
    (∀ t : String, t ≠ "" →
      (build_link_token_request (some t)).access_token = some t ∧
      (build_link_token_request (some t)).products = none) ∧
    (∀ a : Option String,
      ((build_link_token_request a).products = some ["transactions"] ∧
       (build_link_token_request a).access_token = none) ∨
      ((build_link_token_request a).products = none ∧
       (build_link_token_request a).access_token.isSome)) := by
  refine ⟨⟨rfl, rfl⟩, ?_, ?_⟩
  · intro t ht
    simp [build_link_token_request, pyTruthy, ht]
  · intro a
    match a with
    | none => exact Or.inl ⟨rfl, rfl⟩
    | some t =>
      by_cases ht : t = ""
      · subst ht; exact Or.inl ⟨rfl, rfl⟩
      · right
        simp [build_link_token_request, pyTruthy, ht]

/-- Witness for `claim_C5` at a concrete non-empty token. -/
theorem claim_C5_witness :
    (build_link_token_request (some "tok-1")).access_token = some "tok-1" ∧
    (build_link_token_request (some "tok-1")).products = none :=
  claim_C5.2.1 "tok-1" (by decide)

/-- Claim C9: `get_account_balance` makes a single vendor call and returns one
`AccountBalance` per account of the vendor response, in exactly the response's
account order (no reordering, dropping, or duplication: positions and
`account_id`s line up one-for-one). -/
theorem claim_C9 (tok : String) (res : AccountsGetResponse) :
    (get_account_balance tok (Except.ok res)).1.length = 1 ∧
    (get_account_balance tok (Except.ok res)).1 = [{ access_token := tok }] ∧
    (get_account_balance tok (Except.ok res)).2 =
      Except.ok (res.accounts.map AccountBalance.make) ∧
    (res.accounts.map AccountBalance.make).length = res.accounts.length ∧
    (res.accounts.map AccountBalance.make).map (fun b => b.account_id) =
      res.accounts.map fun a => a.account_id := by
  refine ⟨rfl, rfl, rfl, by simp, ?_⟩
  rw [List.map_map]
  rfl

/-- Claim C2: for every scripted sequence of sync responses in which every page
except the last reports `hasMore` and the last does not, `get_transactions`
issues exactly one vendor fetch per page (the trace has one request per page,
and nothing is fetched past the first non-`hasMore` page even when the script
has further entries), uses the empty cursor on the first fetch and each
response's `next_cursor` on the following fetch (`chainCursors`), and returns
exactly the concatenation of the pages' `added` transactions in delivery
order. -/
theorem claim_C2 (tok : String) (sd ed : PDate) (ids : Option (List String))
    (resp : List TransactionsSyncResponse)
    (extra : List (Except ApiException TransactionsSyncResponse))
    (hpaged : CursorPaged resp)
    (hmk : ∀ p ∈ resp, ∀ t ∈ p.added, (Transaction.make t).isSome) :
    get_transactions tok sd ed ids (resp.map Except.ok ++ extra) =
      ((chainCursors "" resp).map fun cur => { access_token := tok, cursor := cur },
       Except.ok ((allAdded resp).filterMap Transaction.make)) ∧
    (get_transactions tok sd ed ids (resp.map Except.ok ++ extra)).1.length = resp.length := by
  have h : get_transactions tok sd ed ids (resp.map Except.ok ++ extra) =
      ((chainCursors "" resp).map fun cur => { access_token := tok, cursor := cur },
       Except.ok ((allAdded resp).filterMap Transaction.make)) :=
    transactionsSyncLoop_ok tok resp extra "" hpaged hmk
  refine ⟨h, ?_⟩
  rw [h]
  simp [chainCursors_length]

/-- Witness for `claim_C2`: the spec's scenario — page 1
`added := [t1, t2], hasMore := true, nextCursor := "c1"`, page 2
`added := [t3], hasMore := false` — returns the three records in order, with
two vendor calls, the second using cursor `"c1"`. -/
theorem claim_C2_witness :
    get_transactions "at" { iso := "2024-01-01" } { iso := "2024-02-01" } none
        [Except.ok pageA, Except.ok pageB] =
      ([{ access_token := "at", cursor := "" }, { access_token := "at", cursor := "c1" }],
       Except.ok ((allAdded [pageA, pageB]).filterMap Transaction.make)) ∧
    ((allAdded [pageA, pageB]).filterMap Transaction.make).map
        (fun tx => tx.transaction_id) = ["t1", "t2", "t3"] := by
  have h := (claim_C2 "at" { iso := "2024-01-01" } { iso := "2024-02-01" } none
      [pageA, pageB] [] ⟨rfl, rfl⟩ (by decide)).1
  constructor
  · simpa [pageA, pageB, chainCursors] using h
  · decide

/-- Claim C7: the `account_ids` argument of `get_transactions` is never
applied — the result (trace and transactions alike) is the same for any two
filter arguments, and every request in the trace carries the access token (its
only fields being the access token and the cursor). -/
theorem claim_C7 (tok : String) (sd ed : PDate) (ids ids2 : Option (List String))
    (pages : List (Except ApiException TransactionsSyncResponse)) :
    get_transactions tok sd ed ids pages = get_transactions tok sd ed ids2 pages ∧
    ((get_transactions tok sd ed ids pages).1.all fun r => r.access_token == tok) = true := by
  refine ⟨rfl, ?_⟩
  rw [List.all_eq_true]
  intro r hr
  have h := transactionsSyncLoop_trace_token tok pages "" r hr
  simp [h]

/-- Claim C8: if a page fetch inside `get_transactions` fails, the whole call
fails with the translated error and returns no transactions (everything
accumulated from earlier pages is discarded with the raised exception), and no
cursor is checkpointed: every call's first request uses the empty cursor. -/
theorem claim_C8 (tok : String) (sd ed : PDate) (ids : Option (List String))
    (resp : List TransactionsSyncResponse) (ex : ApiException)
    (after : List (Except ApiException TransactionsSyncResponse))
    (h : ∀ p ∈ resp, p.has_more = true ∧ ∀ t ∈ p.added, (Transaction.make t).isSome) :
    get_transactions tok sd ed ids (resp.map Except.ok ++ Except.error ex :: after) =
      ((chainCursors "" resp ++ [endCursor "" resp]).map
         fun cur => { access_token := tok, cursor := cur },
       Except.error (AdapterFailure.domain (raise_plaid ex))) ∧
    (∀ pages2 : List (Except ApiException TransactionsSyncResponse),
      (get_transactions tok sd ed ids pages2).1.head? =
        some { access_token := tok, cursor := "" }) :=
  ⟨transactionsSyncLoop_error tok ex resp after "" h,
   fun pages2 => transactionsSyncLoop_head tok "" pages2⟩

/-- Witness for `claim_C8`: one successful `hasMore` page followed by a vendor
error — the call returns only the translated error. -/
theorem claim_C8_witness :
    get_transactions "at" { iso := "2024-01-01" } { iso := "2024-02-01" } none
        [Except.ok pageA,
         Except.error { body := { error_code := "RATE_LIMIT", error_message := "slow down" } }] =
      ([{ access_token := "at", cursor := "" }, { access_token := "at", cursor := "c1" }],
       Except.error (AdapterFailure.domain
         { kind := DomainErrorKind.unknown
           error_code := "RATE_LIMIT"
           error_message := "slow down" })) := by
  have h := (claim_C8 "at" { iso := "2024-01-01" } { iso := "2024-02-01" } none
      [pageA] { body := { error_code := "RATE_LIMIT", error_message := "slow down" } } []
      (by decide)).1
  have h2 : raise_plaid { body := { error_code := "RATE_LIMIT", error_message := "slow down" } } =
      { kind := DomainErrorKind.unknown
        error_code := "RATE_LIMIT"
        error_message := "slow down" } := by decide
  simpa [pageA, chainCursors, endCursor, h2] using h

/-- Claim C10: constructing a `Transaction` is partial — for every vendor
transaction whose `authorized_date` is `None`, `serialize_transaction` calls
`isoformat()` on `None` without a guard and fails with a non-domain error
(`AttributeError`, not a `PlaidError`), and `get_transactions` fails the same
way on any page delivering such a transaction — while a present
`authorized_date` always serializes, the nullable `datetime` field being
guarded. -/
theorem claim_C10 :
    (∀ t : PlaidTransaction, t.authorized_date = none →
        serialize_transaction t = none ∧ Transaction.make t = none) ∧
    (∀ (t : PlaidTransaction) (d : PDate), t.authorized_date = some d →
        (serialize_transaction t).isSome) ∧
    (∀ (tok : String) (sd ed : PDate) (ids : Option (List String))
        (t : PlaidTransaction) (res : TransactionsSyncResponse),
        t.authorized_date = none → res.added = [t] →
        (get_transactions tok sd ed ids [Except.ok res]).2 =
          Except.error AdapterFailure.attributeError) ∧
    (∀ e : PlaidError, AdapterFailure.attributeError ≠ AdapterFailure.domain e) := by
  refine ⟨?_, ?_, ?_, ?_⟩
  · intro t h
    constructor <;> simp [serialize_transaction, Transaction.make, h]
  · intro t d h
    simp [serialize_transaction, h]
  · intro tok sd ed ids t res hn hadd
    have hser : Transaction.make t = none := by
      simp [Transaction.make, serialize_transaction, hn]
    show (transactionsSyncLoop tok "" [Except.ok res]).2 = _
    rw [transactionsSyncLoop.eq_def]
    simp [hadd, mapTransactions, hser]
  · intro e h
    exact AdapterFailure.noConfusion h

/-- Witness for `claim_C10` at a concrete transaction with `authorized_date`
absent. -/
theorem claim_C10_witness :
    serialize_transaction badTx = none ∧
    (get_transactions "at" { iso := "2024-01-01" } { iso := "2024-02-01" } none
        [Except.ok badPage]).2 = Except.error AdapterFailure.attributeError :=
  ⟨(claim_C10.1 badTx rfl).1,
   claim_C10.2.2.1 "at" { iso := "2024-01-01" } { iso := "2024-02-01" } none badTx badPage
     rfl rfl⟩

/-- Counterexample to claim C6: the claim says the vendor requests
`get_transactions` builds depend on the `startDate` and `endDate` arguments
(range-mode pagination over `[startDate, endDate]`), but the source's
`get_transactions` never reads them — two calls with entirely different,
unequal date ranges build the identical request trace and return the identical
result on the same vendor script. -/
theorem claim_C6_counterexample :
    get_transactions "at" { iso := "2021-01-01" } { iso := "2021-12-31" } none
        [Except.ok datePage] =
      get_transactions "at" { iso := "1999-01-01" } { iso := "1999-01-02" } none
        [Except.ok datePage] ∧
    ({ iso := "2021-01-01" } : PDate) ≠ { iso := "1999-01-01" } ∧
    ({ iso := "2021-12-31" } : PDate) ≠ { iso := "1999-01-02" } :=
  ⟨rfl, by decide, by decide⟩

/-- Claim C6 as amended: `get_transactions` accepts `startDate` and `endDate`
but ignores them — the requests it builds and the transactions it returns are
independent of both date arguments (pagination is driven purely by the cursor
and `hasMore`, not by a `[startDate, endDate]` window or a `totalTransactions`
count). -/
theorem claim_C6_amended (tok : String) (sd ed sd2 ed2 : PDate)
    (ids ids2 : Option (List String))
    (pages : List (Except ApiException TransactionsSyncResponse)) :
    get_transactions tok sd ed ids pages = get_transactions tok sd2 ed2 ids2 pages := rfl

/-- Counterexample to claim C4: two vendor transactions that differ only in
`amount` produce `Transaction` records with identical `raw_data` but different
typed `amount` fields, so `amount` is not derivable from `raw_data` alone
(`serialize_transaction` never writes it). -/
theorem claim_C4_counterexample :
    (Transaction.make txAmountA).map (fun tx => tx.raw_data) =
      (Transaction.make txAmountB).map (fun tx => tx.raw_data) ∧
    (Transaction.make txAmountA).map (fun tx => tx.amount) ≠
      (Transaction.make txAmountB).map (fun tx => tx.amount) :=
  ⟨rfl, by decide⟩

/-- Claim C4 as amended: `raw_data` reconstructs every typed field of an
`AccountBalance`; for `AccountInfo` it reconstructs `item_id`,
`institution_id` and the consent-expiration timestamp but not the last-failed
or last-successful sync timestamps (they come from the response's `status`,
which `serialize_item` never writes); for `Transaction` it reconstructs
`account_id`, `date`, `transaction_id`, `pending` and `currency_code` but not
`amount` or `merchant_name` (which `serialize_transaction` never writes). -/
theorem claim_C4_amended :
    (∀ a : AccountBase,
        reconstructAccountBalance ((AccountBalance.make a).raw_data) =
          AccountBalance.make a) ∧
    (∀ r : ItemGetResponse,
        (AccountInfo.make r).raw_data.item_id = (AccountInfo.make r).item_id ∧
        (AccountInfo.make r).raw_data.institution_id = (AccountInfo.make r).institution_id ∧
        ((AccountInfo.make r).raw_data.consent_expiration_time.map fun s =>
            PDateTime.mk s) = (AccountInfo.make r).ts_consent_expiration) ∧
    (¬∃ f : RawItem → Option PDateTime, ∀ r : ItemGetResponse,
        f (AccountInfo.make r).raw_data = (AccountInfo.make r).ts_last_failed_update) ∧
    (¬∃ f : RawItem → Option PDateTime, ∀ r : ItemGetResponse,
        f (AccountInfo.make r).raw_data = (AccountInfo.make r).ts_last_successful_update) ∧
    (∀ (t : PlaidTransaction) (tx : Transaction), Transaction.make t = some tx →
        tx.raw_data.account_id = tx.account_id ∧
        PDate.mk tx.raw_data.date = tx.date ∧
        tx.raw_data.transaction_id = tx.transaction_id ∧
        tx.raw_data.pending = tx.pending ∧
        tx.raw_data.iso_currency_code = tx.currency_code) ∧
    (¬∃ g : RawTransaction → Int, ∀ (t : PlaidTransaction) (tx : Transaction),
        Transaction.make t = some tx → g tx.raw_data = tx.amount) ∧
    (¬∃ g : RawTransaction → Option String, ∀ (t : PlaidTransaction) (tx : Transaction),
        Transaction.make t = some tx → g tx.raw_data = tx.merchant_name) := by
  refine ⟨?_, ?_, ?_, ?_, ?_, ?_, ?_⟩
  · intro a
    rfl
  · intro r
    refine ⟨rfl, rfl, ?_⟩
    show ((serialize_item r.item).consent_expiration_time.map fun s => PDateTime.mk s) =
      r.item.consent_expiration_time
    cases h : r.item.consent_expiration_time with
    | none => simp [serialize_item, h]
    | some t => simp [serialize_item, h, PDateTime.isoformat]
  · rintro ⟨f, hf⟩
    have hA := hf infoRespA
    have hB := hf infoRespB
    rw [show (AccountInfo.make infoRespA).raw_data = (AccountInfo.make infoRespB).raw_data
      from rfl] at hA
    exact absurd (hA.symm.trans hB) (by decide)
  · rintro ⟨f, hf⟩
    have hA := hf infoRespA
    have hB := hf infoRespB
    rw [show (AccountInfo.make infoRespA).raw_data = (AccountInfo.make infoRespB).raw_data
      from rfl] at hA
    exact absurd (hA.symm.trans hB) (by decide)
  · intro t tx h
    cases hd : t.authorized_date with
    | none => simp [Transaction.make, serialize_transaction, hd] at h
    | some ad =>
      simp [Transaction.make, serialize_transaction, hd] at h
      subst h
      exact ⟨rfl, rfl, rfl, rfl, rfl⟩
  · rintro ⟨g, hg⟩
    have hA : (Transaction.make txAmountA).map (fun tx => g tx.raw_data) =
        (Transaction.make txAmountA).map (fun tx => tx.amount) := by
      cases hmk : Transaction.make txAmountA with
      | none => rfl
      | some tx => simp [hg txAmountA tx hmk]
    have hB : (Transaction.make txAmountB).map (fun tx => g tx.raw_data) =
        (Transaction.make txAmountB).map (fun tx => tx.amount) := by
      cases hmk : Transaction.make txAmountB with
      | none => rfl
      | some tx => simp [hg txAmountB tx hmk]
    have hraw : (Transaction.make txAmountA).map (fun tx => g tx.raw_data) =
        (Transaction.make txAmountB).map (fun tx => g tx.raw_data) := rfl
    exact absurd (hA.symm.trans (hraw.trans hB)) (by decide)
  · rintro ⟨g, hg⟩
    have hA : (Transaction.make txMerchA).map (fun tx => g tx.raw_data) =
        (Transaction.make txMerchA).map (fun tx => tx.merchant_name) := by
      cases hmk : Transaction.make txMerchA with
      | none => rfl
      | some tx => simp [hg txMerchA tx hmk]
    have hB : (Transaction.make txMerchB).map (fun tx => g tx.raw_data) =
        (Transaction.make txMerchB).map (fun tx => tx.merchant_name) := by
      cases hmk : Transaction.make txMerchB with
      | none => rfl
      | some tx => simp [hg txMerchB tx hmk]
    have hraw : (Transaction.make txMerchA).map (fun tx => g tx.raw_data) =
        (Transaction.make txMerchB).map (fun tx => g tx.raw_data) := rfl
    exact absurd (hA.symm.trans (hraw.trans hB)) (by decide)

/-- Witness for `claim_C4_amended` at concrete records. -/
theorem claim_C4_witness :
    Transaction.make (sampleTx "tw") = some sampleTxRecord ∧
    reconstructAccountBalance ((AccountBalance.make sampleAccount).raw_data) =
      AccountBalance.make sampleAccount ∧
    PDate.mk sampleTxRecord.raw_data.date = sampleTxRecord.date ∧
    sampleTxRecord.raw_data.transaction_id = sampleTxRecord.transaction_id :=
  ⟨rfl,
   claim_C4_amended.1 sampleAccount,
   (claim_C4_amended.2.2.2.2.1 (sampleTx "tw") sampleTxRecord rfl).2.1,
   (claim_C4_amended.2.2.2.2.1 (sampleTx "tw") sampleTxRecord rfl).2.2.1⟩
